import Mathlib

/-!
Shallow embedding of `custom_components/jvc_projectors/remote.py` (the
`JVCRemote` entity class) and proofs about its behaviour.

The external projector client (`jvc_projector.JVCProjector`) is modelled as a
record of call results: each getter either returns a value (`Except.ok`) or
raises (`Except.error msg`).  Entity methods are modelled as functions from a
client and an entity state to a result context that records the new entity
state, the ordered list of client calls actually performed, and the exception
(if any) that propagated out of the method.
-/

/-- Python's `pat in s` membership test on lists of characters:
`leadsWith s p` is true when `p` is an initial segment of `s`. -/
def leadsWith : List Char → List Char → Bool
  | _, [] => true
  | [], _ :: _ => false
  | c :: cs, p :: ps => c == p && leadsWith cs ps

/-- The test `occursL pat s` is true when `pat` occurs contiguously inside `s`. -/
def occursL (pat : List Char) : List Char → Bool
  | [] => pat.isEmpty
  | c :: rest => leadsWith (c :: rest) pat || occursL pat rest

/-- Python's `pat in s` substring test on strings. -/
def pyIn (pat s : String) : Bool := occursL pat.toList s.toList

/-- The fields of a `JVCRemote` entity instance, as initialised in
`JVCRemote.__init__` (leading underscores dropped). -/
structure EntityState where
  name : String
  host : String
  state : Bool
  lowlatency_enabled : Bool
  installation_mode : String
  picture_mode : String
  input_mode : String
  laser_mode : String
  eshift : String
  color_mode : String
  input_level : String
  content_type : String
  hdr_processing : String
  lamp_power : String
  hdr_data : String
  theater_optimizer : String
  model_family : String
deriving DecidableEq

/-- A value in the `extra_state_attributes` dictionary: the source stores
booleans (`power_state`, `low_latency`, `theater_optimizer`) and strings. -/
inductive AttrVal where
  | b : Bool → AttrVal
  | s : String → AttrVal
deriving DecidableEq

/-- The client operations `JVCRemote` invokes, used as trace labels. -/
inductive ClientCall where
  | isOn
  | isLLOn
  | getInstallMode
  | getInputMode
  | getColorMode
  | getInputLevel
  | getPictureMode
  | getContentType
  | getLaserMode
  | getHdrProcessing
  | getTheaterOptimizerState
  | getLampPower
  | getEshiftMode
  | getHdrData
  | powerOn
  | powerOff
deriving DecidableEq

/-- Model of the external `JVCProjector` client: each operation either
returns a value or raises the recorded exception message. -/
structure JVCClient where
  model_family : String
  is_on : Except String Bool
  is_ll_on : Except String Bool
  get_install_mode : Except String String
  get_input_mode : Except String String
  get_color_mode : Except String String
  get_input_level : Except String String
  get_picture_mode : Except String String
  get_content_type : Except String String
  get_laser_mode : Except String String
  get_hdr_processing : Except String String
  get_theater_optimizer_state : Except String String
  get_lamp_power : Except String String
  get_eshift_mode : Except String String
  get_hdr_data : Except String String
  power_on : Except String Unit
  power_off : Except String Unit

/-- Result of running an entity method: the entity state afterwards, the
client calls performed in order, and the exception that propagated (if any). -/
structure UpdCtx where
  st : EntityState
  calls : List ClientCall
  err : Option String
deriving DecidableEq

/-- One statement `self._field = self.jvc_client.getter()`: if an exception is
already propagating, nothing happens; otherwise the call is performed, and the
assignment happens only when the call returns normally. -/
def step {α : Type} (ctx : UpdCtx) (call : ClientCall) (res : Except String α)
    (assign : EntityState → α → EntityState) : UpdCtx :=
  match ctx.err with
  | some _ => ctx
  | none =>
    match res with
    | Except.error e => { ctx with calls := ctx.calls ++ [call], err := some e }
    | Except.ok v => { st := assign ctx.st v, calls := ctx.calls ++ [call], err := none }

/-- Model of `JVCRemote.__init__`: every cached attribute starts as the empty string,
power state starts false, and the model family is copied from the client. -/
def initEntity (name host : String) (c : JVCClient) : EntityState :=
  { name := name
    host := host
    state := false
    lowlatency_enabled := false
    installation_mode := ""
    picture_mode := ""
    input_mode := ""
    laser_mode := ""
    eshift := ""
    color_mode := ""
    input_level := ""
    content_type := ""
    hdr_processing := ""
    lamp_power := ""
    hdr_data := ""
    theater_optimizer := ""
    model_family := c.model_family }

/-- The `is_on` property: returns the cached power boolean. -/
def is_on_value (s : EntityState) : Bool := s.state

/-- Model of `JVCRemote.extra_state_attributes`: a dictionary (modelled as an ordered
association list) whose shape is dispatched on substring tests against the
model family. -/
def extra_state_attributes (s : EntityState) : List (String × AttrVal) :=
  if pyIn "NZ" s.model_family then
    [("power_state", AttrVal.b s.state),
     ("picture_mode", AttrVal.s s.picture_mode),
     ("content_type", AttrVal.s s.content_type),
     ("hdr_data", AttrVal.s s.hdr_data),
     ("hdr_processing", AttrVal.s s.hdr_processing),
     ("theater_optimizer", AttrVal.b (pyIn "on" s.theater_optimizer)),
     ("low_latency", AttrVal.b s.lowlatency_enabled),
     ("input_mode", AttrVal.s s.input_mode),
     ("laser_mode", AttrVal.s s.laser_mode),
     ("input_level", AttrVal.s s.input_level),
     ("color_mode", AttrVal.s s.color_mode),
     ("installation_mode", AttrVal.s s.installation_mode),
     ("eshift", AttrVal.s s.eshift),
     ("model", AttrVal.s s.model_family)]
  else if pyIn "NX" s.model_family then
    [("power_state", AttrVal.b s.state),
     ("picture_mode", AttrVal.s s.picture_mode),
     ("hdr_data", AttrVal.s s.hdr_data),
     ("low_latency", AttrVal.b s.lowlatency_enabled),
     ("input_mode", AttrVal.s s.input_mode),
     ("lamp_power", AttrVal.s s.lamp_power),
     ("input_level", AttrVal.s s.input_level),
     ("installation_mode", AttrVal.s s.installation_mode),
     ("color_mode", AttrVal.s s.color_mode),
     ("eshift", AttrVal.s s.eshift),
     ("model", AttrVal.s s.model_family)]
  else
    [("power_state", AttrVal.b s.state),
     ("picture_mode", AttrVal.s s.picture_mode),
     ("low_latency", AttrVal.b s.lowlatency_enabled),
     ("input_mode", AttrVal.s s.input_mode),
     ("lamp_power", AttrVal.s s.lamp_power),
     ("input_level", AttrVal.s s.input_level),
     ("color_mode", AttrVal.s s.color_mode),
     ("installation_mode", AttrVal.s s.installation_mode),
     ("model", AttrVal.s s.model_family)]

/-- Model of `JVCRemote.turn_on`: call `power_on()` on the client, then set the cached
power boolean to true. -/
def turn_on (c : JVCClient) (s : EntityState) : UpdCtx :=
  match c.power_on with
  | Except.error e => { st := s, calls := [ClientCall.powerOn], err := some e }
  | Except.ok _ => { st := { s with state := true }, calls := [ClientCall.powerOn], err := none }

/-- Model of `JVCRemote.turn_off`: call `power_off()` on the client, then set the cached
power boolean to false. -/
def turn_off (c : JVCClient) (s : EntityState) : UpdCtx :=
  match c.power_off with
  | Except.error e => { st := s, calls := [ClientCall.powerOff], err := some e }
  | Except.ok _ => { st := { s with state := false }, calls := [ClientCall.powerOff], err := none }

/-- Model of `JVCRemote.update`: refresh the cached power boolean, and if it is true,
run the fixed getter sequence with model-family dispatch.  The `step`
combinator makes a raised exception skip every later statement, matching
Python's propagation out of the method body. -/
def update (c : JVCClient) (s : EntityState) : UpdCtx :=
  let ctx := step ⟨s, [], none⟩ ClientCall.isOn c.is_on
    (fun st v => { st with state := v })
  if ctx.st.state then
    let ctx := step ctx ClientCall.isLLOn c.is_ll_on
      (fun st v => { st with lowlatency_enabled := v })
    let ctx := step ctx ClientCall.getInstallMode c.get_install_mode
      (fun st v => { st with installation_mode := v })
    let ctx := step ctx ClientCall.getInputMode c.get_input_mode
      (fun st v => { st with input_mode := v })
    let ctx := step ctx ClientCall.getColorMode c.get_color_mode
      (fun st v => { st with color_mode := v })
    let ctx := step ctx ClientCall.getInputLevel c.get_input_level
      (fun st v => { st with input_level := v })
    let ctx := step ctx ClientCall.getPictureMode c.get_picture_mode
      (fun st v => { st with picture_mode := v })
    let ctx :=
      if pyIn "NZ" ctx.st.model_family then
        let ctx := step ctx ClientCall.getContentType c.get_content_type
          (fun st v => { st with content_type := v })
        let ctx := step ctx ClientCall.getLaserMode c.get_laser_mode
          (fun st v => { st with laser_mode := v })
        if pyIn "hdr" ctx.st.content_type || pyIn "hlg" ctx.st.content_type then
          let ctx := step ctx ClientCall.getHdrProcessing c.get_hdr_processing
            (fun st v => { st with hdr_processing := v })
          step ctx ClientCall.getTheaterOptimizerState c.get_theater_optimizer_state
            (fun st v => { st with theater_optimizer := v })
        else ctx
      else ctx
    let ctx :=
      if !(pyIn "NZ" ctx.st.model_family) then
        step ctx ClientCall.getLampPower c.get_lamp_power
          (fun st v => { st with lamp_power := v })
      else ctx
    let ctx :=
      if pyIn "NX" ctx.st.model_family || pyIn "NZ" ctx.st.model_family then
        let ctx := step ctx ClientCall.getEshiftMode c.get_eshift_mode
          (fun st v => { st with eshift := v })
        step ctx ClientCall.getHdrData c.get_hdr_data
          (fun st v => { st with hdr_data := v })
      else ctx
    ctx
  else ctx

/-- Spec's key list for a model family containing "NZ". -/
def nzKeys : List String :=
  ["power_state", "picture_mode", "content_type", "hdr_data", "hdr_processing",
   "theater_optimizer", "low_latency", "input_mode", "laser_mode", "input_level",
   "color_mode", "installation_mode", "eshift", "model"]

/-- Spec's key list for a model family containing "NX" but not "NZ". -/
def nxKeys : List String :=
  ["power_state", "picture_mode", "hdr_data", "low_latency", "input_mode",
   "lamp_power", "input_level", "installation_mode", "color_mode", "eshift", "model"]

/-- Spec's key list for any other model family. -/
def baseKeys : List String :=
  ["power_state", "picture_mode", "low_latency", "input_mode", "lamp_power",
   "input_level", "color_mode", "installation_mode", "model"]

/-- A fully functioning client (every call succeeds), parameterised by model
family, power answer, and content type. -/
def mkClient (fam : String) (powered : Bool) (ct : String) : JVCClient :=
  { model_family := fam
    is_on := Except.ok powered
    is_ll_on := Except.ok true
    get_install_mode := Except.ok "mode1"
    get_input_mode := Except.ok "hdmi1"
    get_color_mode := Except.ok "bt2020"
    get_input_level := Except.ok "enhanced"
    get_picture_mode := Except.ok "frame_adapt_hdr"
    get_content_type := Except.ok ct
    get_laser_mode := Except.ok "auto1"
    get_hdr_processing := Except.ok "hdr10"
    get_theater_optimizer_state := Except.ok "on"
    get_lamp_power := Except.ok "high"
    get_eshift_mode := Except.ok "on"
    get_hdr_data := Except.ok "hdr10"
    power_on := Except.ok ()
    power_off := Except.ok () }

/-- Client whose power commands raise. -/
def failPowerClient : JVCClient :=
  { mkClient "NZ7" true "hlg_content" with
    power_on := Except.error "ConnectionError"
    power_off := Except.error "ConnectionError" }

/-- Client that reports the device off. -/
def offClient : JVCClient := mkClient "NZ7" false "no_signal"

/-- Client whose `get_input_level` getter raises mid-cycle. -/
def failLevelClient : JVCClient :=
  { mkClient "NZ7" true "hlg_content" with
    get_input_level := Except.error "TimeoutError" }

/-- A sample entity state as freshly constructed against an NZ client. -/
def s0 : EntityState := initEntity "proj" "10.0.0.5" (mkClient "NZ7" true "hlg_content")

/-- The six common getter statements of `update`, as one function.  Proof
device: `update_decomp` links the blocks below definitionally to `update`. -/
def commonSteps (c : JVCClient) (ctx : UpdCtx) : UpdCtx :=
  let ctx := step ctx ClientCall.isLLOn c.is_ll_on
    (fun st v => { st with lowlatency_enabled := v })
  let ctx := step ctx ClientCall.getInstallMode c.get_install_mode
    (fun st v => { st with installation_mode := v })
  let ctx := step ctx ClientCall.getInputMode c.get_input_mode
    (fun st v => { st with input_mode := v })
  let ctx := step ctx ClientCall.getColorMode c.get_color_mode
    (fun st v => { st with color_mode := v })
  let ctx := step ctx ClientCall.getInputLevel c.get_input_level
    (fun st v => { st with input_level := v })
  step ctx ClientCall.getPictureMode c.get_picture_mode
    (fun st v => { st with picture_mode := v })

/-- The NZ-specific statements of `update` (content type, laser mode, and the
guarded HDR queries). -/
def nzBlock (c : JVCClient) (ctx : UpdCtx) : UpdCtx :=
  if pyIn "NZ" ctx.st.model_family then
    let ctx := step ctx ClientCall.getContentType c.get_content_type
      (fun st v => { st with content_type := v })
    let ctx := step ctx ClientCall.getLaserMode c.get_laser_mode
      (fun st v => { st with laser_mode := v })
    if pyIn "hdr" ctx.st.content_type || pyIn "hlg" ctx.st.content_type then
      let ctx := step ctx ClientCall.getHdrProcessing c.get_hdr_processing
        (fun st v => { st with hdr_processing := v })
      step ctx ClientCall.getTheaterOptimizerState c.get_theater_optimizer_state
        (fun st v => { st with theater_optimizer := v })
    else ctx
  else ctx

/-- The lamp-power statement of `update`, run for non-NZ families. -/
def lampBlock (c : JVCClient) (ctx : UpdCtx) : UpdCtx :=
  if !(pyIn "NZ" ctx.st.model_family) then
    step ctx ClientCall.getLampPower c.get_lamp_power
      (fun st v => { st with lamp_power := v })
  else ctx

/-- The e-shift and HDR-data statements of `update`, run for NX and NZ. -/
def nxBlock (c : JVCClient) (ctx : UpdCtx) : UpdCtx :=
  if pyIn "NX" ctx.st.model_family || pyIn "NZ" ctx.st.model_family then
    let ctx := step ctx ClientCall.getEshiftMode c.get_eshift_mode
      (fun st v => { st with eshift := v })
    step ctx ClientCall.getHdrData c.get_hdr_data
      (fun st v => { st with hdr_data := v })
  else ctx

/-- Decomposition: `update` is definitionally the power refresh followed by the four blocks. -/
theorem update_decomp (c : JVCClient) (s : EntityState) :
    update c s =
      (if (step ⟨s, [], none⟩ ClientCall.isOn c.is_on
            (fun st v => { st with state := v })).st.state then
        nxBlock c (lampBlock c (nzBlock c (commonSteps c
          (step ⟨s, [], none⟩ ClientCall.isOn c.is_on
            (fun st v => { st with state := v })))))
       else
        step ⟨s, [], none⟩ ClientCall.isOn c.is_on
          (fun st v => { st with state := v })) := rfl

/-- A statement reached while an exception is propagating does nothing. -/
theorem step_err_skip {α : Type} (ctx : UpdCtx) (call : ClientCall)
    (res : Except String α) (assign : EntityState → α → EntityState)
    (e : String) (h : ctx.err = some e) :
    step ctx call res assign = ctx := by
  simp [step, h]

/-- When no exception is propagating, the call is recorded whatever its
result. -/
theorem step_calls_rec {α : Type} (ctx : UpdCtx) (call : ClientCall)
    (res : Except String α) (assign : EntityState → α → EntityState)
    (h : ctx.err = none) :
    (step ctx call res assign).calls = ctx.calls ++ [call] := by
  cases res <;> simp [step, h]

/-- A successful statement assigns exactly the returned value. -/
theorem step_ok {α : Type} (ctx : UpdCtx) (call : ClientCall)
    (res : Except String α) (assign : EntityState → α → EntityState) (v : α)
    (h : ctx.err = none) (hres : res = Except.ok v) :
    step ctx call res assign = ⟨assign ctx.st v, ctx.calls ++ [call], none⟩ := by
  simp [step, h, hres]

/-- A raising statement records the exception and assigns nothing. -/
theorem step_raise {α : Type} (ctx : UpdCtx) (call : ClientCall)
    (res : Except String α) (assign : EntityState → α → EntityState) (e : String)
    (h : ctx.err = none) (hres : res = Except.error e) :
    step ctx call res assign = ⟨ctx.st, ctx.calls ++ [call], some e⟩ := by
  simp [step, h, hres]

/-- Any call in a statement's trace is an older call or that statement's. -/
theorem mem_step_calls {α : Type} {x : ClientCall} {ctx : UpdCtx}
    {call : ClientCall} {res : Except String α}
    {assign : EntityState → α → EntityState}
    (h : x ∈ (step ctx call res assign).calls) : x ∈ ctx.calls ∨ x = call := by
  cases he : ctx.err with
  | some e =>
    rw [step_err_skip ctx call res assign e he] at h
    exact Or.inl h
  | none =>
    rw [step_calls_rec ctx call res assign he] at h
    simpa using h

/-- A statement whose assignment leaves the model family alone preserves it. -/
theorem step_model_family {α : Type} (ctx : UpdCtx) (call : ClientCall)
    (res : Except String α) (assign : EntityState → α → EntityState)
    (h : ∀ st v, (assign st v).model_family = st.model_family) :
    (step ctx call res assign).st.model_family = ctx.st.model_family := by
  cases he : ctx.err with
  | some e => rw [step_err_skip ctx call res assign e he]
  | none =>
    cases res with
    | error e => rw [step_raise ctx call (Except.error e) assign e he rfl]
    | ok v =>
      rw [step_ok ctx call (Except.ok v) assign v he rfl]
      exact h ctx.st v

/-- A statement whose assignment leaves the content type alone preserves it. -/
theorem step_content_type {α : Type} (ctx : UpdCtx) (call : ClientCall)
    (res : Except String α) (assign : EntityState → α → EntityState)
    (h : ∀ st v, (assign st v).content_type = st.content_type) :
    (step ctx call res assign).st.content_type = ctx.st.content_type := by
  cases he : ctx.err with
  | some e => rw [step_err_skip ctx call res assign e he]
  | none =>
    cases res with
    | error e => rw [step_raise ctx call (Except.error e) assign e he rfl]
    | ok v =>
      rw [step_ok ctx call (Except.ok v) assign v he rfl]
      exact h ctx.st v

/-- The common statements never touch the model family. -/
theorem commonSteps_model_family (c : JVCClient) (ctx : UpdCtx) :
    (commonSteps c ctx).st.model_family = ctx.st.model_family := by
  simp only [commonSteps]
  refine (step_model_family _ _ _ _ ?_).trans
    ((step_model_family _ _ _ _ ?_).trans
      ((step_model_family _ _ _ _ ?_).trans
        ((step_model_family _ _ _ _ ?_).trans
          ((step_model_family _ _ _ _ ?_).trans
            (step_model_family _ _ _ _ ?_))))) <;> intro st v <;> rfl

/-- The common statements only perform the six common calls. -/
theorem mem_commonSteps_calls {c : JVCClient} {ctx : UpdCtx} {x : ClientCall}
    (h : x ∈ (commonSteps c ctx).calls) :
    x ∈ ctx.calls ∨ x = ClientCall.isLLOn ∨ x = ClientCall.getInstallMode ∨
      x = ClientCall.getInputMode ∨ x = ClientCall.getColorMode ∨
      x = ClientCall.getInputLevel ∨ x = ClientCall.getPictureMode := by
  simp only [commonSteps] at h
  rcases mem_step_calls h with h | h
  rcases mem_step_calls h with h | h
  rcases mem_step_calls h with h | h
  rcases mem_step_calls h with h | h
  rcases mem_step_calls h with h | h
  rcases mem_step_calls h with h | h
  all_goals tauto

/-- A propagating exception skips the whole NZ block. -/
theorem nzBlock_err_skip (c : JVCClient) (ctx : UpdCtx) (e : String)
    (h : ctx.err = some e) : nzBlock c ctx = ctx := by
  simp [nzBlock, step, h]

/-- A propagating exception skips the lamp-power statement. -/
theorem lampBlock_err_skip (c : JVCClient) (ctx : UpdCtx) (e : String)
    (h : ctx.err = some e) : lampBlock c ctx = ctx := by
  simp [lampBlock, step, h]

/-- A propagating exception skips the e-shift and HDR-data statements. -/
theorem nxBlock_err_skip (c : JVCClient) (ctx : UpdCtx) (e : String)
    (h : ctx.err = some e) : nxBlock c ctx = ctx := by
  simp [nxBlock, step, h]

/-- The e-shift and HDR-data statements only add their two calls. -/
theorem mem_nxBlock_calls {c : JVCClient} {ctx : UpdCtx} {x : ClientCall}
    (h : x ∈ (nxBlock c ctx).calls) :
    x ∈ ctx.calls ∨ x = ClientCall.getEshiftMode ∨ x = ClientCall.getHdrData := by
  simp only [nxBlock] at h
  by_cases hc : (pyIn "NX" ctx.st.model_family || pyIn "NZ" ctx.st.model_family) = true
  · rw [if_pos hc] at h
    rcases mem_step_calls h with h | h
    rcases mem_step_calls h with h | h
    all_goals tauto
  · rw [if_neg hc] at h
    tauto

/-- Claim C1: the key set of `extra_state_attributes` is exactly determined by
the model-family string: the NZ key list when the family contains "NZ", else
the NX key list when it contains "NX", else the base key list. -/
theorem C1_extra_state_attributes_keys (s : EntityState) :
    (extra_state_attributes s).map Prod.fst =
      (if pyIn "NZ" s.model_family then nzKeys
       else if pyIn "NX" s.model_family then nxKeys
       else baseKeys) := by
  unfold extra_state_attributes nzKeys nxKeys baseKeys
  split_ifs <;> rfl

/-- Claim C2 counterexample: with a client whose `power_on` raises, `turn_on`
does not set the cached power boolean to true, contradicting the claim that
`is_on` becomes true "including when the client call raises". -/
theorem C2_counterexample :
    (turn_on failPowerClient s0).st.state = false ∧
    (turn_on failPowerClient s0).err = some "ConnectionError" :=
  ⟨rfl, rfl⟩

/-- Claim C2 (amended): `turn_on` performs exactly the client's power-on call
(no confirming read of device state), and whenever that call returns normally
it sets the cached power boolean to true without any further client traffic. -/
theorem C2_turn_on_optimistic (c : JVCClient) (s : EntityState) :
    (turn_on c s).calls = [ClientCall.powerOn] ∧
    (∀ u, c.power_on = Except.ok u →
      turn_on c s = ⟨{ s with state := true }, [ClientCall.powerOn], none⟩) := by
  constructor
  · rcases h : c.power_on with e | u <;> simp [turn_on, h]
  · intro u hu
    simp [turn_on, hu]

/-- Concrete instance of the amended C2 theorem. -/
theorem C2_witness :
    turn_on (mkClient "NZ7" true "hlg_content") s0
      = ⟨{ s0 with state := true }, [ClientCall.powerOn], none⟩ :=
  (C2_turn_on_optimistic (mkClient "NZ7" true "hlg_content") s0).2 () rfl

/-- Claim C3: when the power query answers false, the poll performs no other
client call and every non-power field keeps exactly its previous value. -/
theorem C3_update_power_off (c : JVCClient) (s : EntityState)
    (h : c.is_on = Except.ok false) :
    update c s = ⟨{ s with state := false }, [ClientCall.isOn], none⟩ := by
  simp [update, step, h]

/-- Concrete instance of C3. -/
theorem C3_witness :
    update offClient s0 = ⟨{ s0 with state := false }, [ClientCall.isOn], none⟩ :=
  C3_update_power_off offClient s0 rfl

/-- Claim C7: `extra_state_attributes` is a pure function of the cached
attribute fields and the model-family string alone: two states agreeing on
those fields (whatever their name and host) yield the same dictionary, and
the computation is total. -/
theorem C7_extra_state_attributes_pure (s s' : EntityState)
    (h1 : s'.state = s.state)
    (h2 : s'.lowlatency_enabled = s.lowlatency_enabled)
    (h3 : s'.installation_mode = s.installation_mode)
    (h4 : s'.picture_mode = s.picture_mode)
    (h5 : s'.input_mode = s.input_mode)
    (h6 : s'.laser_mode = s.laser_mode)
    (h7 : s'.eshift = s.eshift)
    (h8 : s'.color_mode = s.color_mode)
    (h9 : s'.input_level = s.input_level)
    (h10 : s'.content_type = s.content_type)
    (h11 : s'.hdr_processing = s.hdr_processing)
    (h12 : s'.lamp_power = s.lamp_power)
    (h13 : s'.hdr_data = s.hdr_data)
    (h14 : s'.theater_optimizer = s.theater_optimizer)
    (h15 : s'.model_family = s.model_family) :
    extra_state_attributes s' = extra_state_attributes s := by
  cases s
  cases s'
  simp_all [extra_state_attributes]

/-- Concrete instance of C7: changing only name and host changes nothing. -/
theorem C7_witness :
    extra_state_attributes { s0 with name := "other", host := "10.9.9.9" }
      = extra_state_attributes s0 :=
  C7_extra_state_attributes_pure s0 { s0 with name := "other", host := "10.9.9.9" }
    rfl rfl rfl rfl rfl rfl rfl rfl rfl rfl rfl rfl rfl rfl rfl

/-- Claim C8: if the client's power command raises, `turn_on` (resp.
`turn_off`) leaves the entity state exactly as it was: the optimistic
assignment happens only after the client call returns. -/
theorem C8_power_raise_no_change (c : JVCClient) (s : EntityState) :
    (∀ e, c.power_on = Except.error e →
      turn_on c s = ⟨s, [ClientCall.powerOn], some e⟩) ∧
    (∀ e, c.power_off = Except.error e →
      turn_off c s = ⟨s, [ClientCall.powerOff], some e⟩) := by
  constructor <;> intro e he <;> simp [turn_on, turn_off, he]

/-- Concrete instance of C8. -/
theorem C8_witness :
    turn_on failPowerClient s0 = ⟨s0, [ClientCall.powerOn], some "ConnectionError"⟩ :=
  (C8_power_raise_no_change failPowerClient s0).1 "ConnectionError" rfl

/-- Claim C10: for an NZ-family state the `theater_optimizer` entry is the
boolean telling whether "on" occurs in the cached string, and it is `false`
(not an error) when the cached value is the initial empty string. -/
theorem C10_theater_optimizer_bool (s : EntityState)
    (h : pyIn "NZ" s.model_family = true) :
    List.lookup "theater_optimizer" (extra_state_attributes s)
      = some (AttrVal.b (pyIn "on" s.theater_optimizer)) ∧
    (s.theater_optimizer = "" →
      List.lookup "theater_optimizer" (extra_state_attributes s)
        = some (AttrVal.b false)) := by
  constructor
  · simp [extra_state_attributes, h, List.lookup]
  · intro he
    simp [extra_state_attributes, h, List.lookup, he]
    decide

/-- Concrete instance of C10 at the freshly initialised state. -/
theorem C10_witness :
    List.lookup "theater_optimizer" (extra_state_attributes s0)
      = some (AttrVal.b false) :=
  (C10_theater_optimizer_bool s0 (by decide)).2 rfl

/-- Claim C4: on an NZ-family poll with the device on, if the content type
read that cycle contains neither "hdr" nor "hlg", then the HDR-processing and
theater-optimizer getters are never invoked during that cycle — whatever the
other getters return or raise. -/
theorem C4_no_hdr_queries (c : JVCClient) (s : EntityState) (ct : String)
    (hfam : pyIn "NZ" s.model_family = true)
    (hio : c.is_on = Except.ok true)
    (hct : c.get_content_type = Except.ok ct)
    (hhdr : pyIn "hdr" ct = false)
    (hhlg : pyIn "hlg" ct = false) :
    ClientCall.getHdrProcessing ∉ (update c s).calls ∧
    ClientCall.getTheaterOptimizerState ∉ (update c s).calls := by
  have h0 : step (⟨s, [], none⟩ : UpdCtx) ClientCall.isOn c.is_on
      (fun st v => { st with state := v })
      = ⟨{ s with state := true }, [ClientCall.isOn], none⟩ := by
    simp [step, hio]
  rw [update_decomp, h0]
  have hst : ((⟨{ s with state := true }, [ClientCall.isOn], none⟩ : UpdCtx)).st.state = true := rfl
  rw [if_pos hst]
  set ctx0 : UpdCtx := ⟨{ s with state := true }, [ClientCall.isOn], none⟩ with hctx0
  rcases h7 : (commonSteps c ctx0).err with _ | e
  · -- no exception in the common statements: content type is really read
    have hfam7 : (commonSteps c ctx0).st.model_family = s.model_family := by
      rw [commonSteps_model_family, hctx0]
    have hcond : pyIn "NZ" (commonSteps c ctx0).st.model_family = true := by
      rw [hfam7]; exact hfam
    have h8 : step (commonSteps c ctx0) ClientCall.getContentType c.get_content_type
        (fun st v => { st with content_type := v })
        = ⟨{ (commonSteps c ctx0).st with content_type := ct },
           (commonSteps c ctx0).calls ++ [ClientCall.getContentType], none⟩ :=
      step_ok _ _ _ _ ct h7 hct
    have hlaserct : (step (step (commonSteps c ctx0) ClientCall.getContentType
        c.get_content_type (fun st v => { st with content_type := v }))
        ClientCall.getLaserMode c.get_laser_mode
        (fun st v => { st with laser_mode := v })).st.content_type = ct := by
      rw [step_content_type _ _ _ (fun st v => { st with laser_mode := v })
        (fun st v => rfl), h8]
    have hnz : nzBlock c (commonSteps c ctx0)
        = step (step (commonSteps c ctx0) ClientCall.getContentType c.get_content_type
            (fun st v => { st with content_type := v }))
            ClientCall.getLaserMode c.get_laser_mode
            (fun st v => { st with laser_mode := v }) := by
      simp only [nzBlock, hcond, hlaserct, hhdr, hhlg]
      simp
    have hfam9 : (nzBlock c (commonSteps c ctx0)).st.model_family = s.model_family := by
      rw [hnz,
        step_model_family _ _ _ (fun st v => { st with laser_mode := v }) (fun st v => rfl),
        step_model_family _ _ _ (fun st v => { st with content_type := v }) (fun st v => rfl),
        hfam7]
    have hlamp : lampBlock c (nzBlock c (commonSteps c ctx0))
        = nzBlock c (commonSteps c ctx0) := by
      simp only [lampBlock, hfam9, hfam]
      simp
    rw [hlamp]
    constructor <;> intro hx
    · rcases mem_nxBlock_calls hx with h | h | h
      · rw [hnz] at h
        rcases mem_step_calls h with h | h
        · rcases mem_step_calls h with h | h
          · rcases mem_commonSteps_calls h with h | h | h | h | h | h | h <;> simp_all
          · simp_all
        · simp_all
      · simp_all
      · simp_all
    · rcases mem_nxBlock_calls hx with h | h | h
      · rw [hnz] at h
        rcases mem_step_calls h with h | h
        · rcases mem_step_calls h with h | h
          · rcases mem_commonSteps_calls h with h | h | h | h | h | h | h <;> simp_all
          · simp_all
        · simp_all
      · simp_all
      · simp_all
  · -- an exception during the common statements: every later block is a no-op
    rw [nzBlock_err_skip c _ e h7, lampBlock_err_skip c _ e h7, nxBlock_err_skip c _ e h7]
    constructor <;> intro hx <;>
      rcases mem_commonSteps_calls hx with h | h | h | h | h | h | h <;> simp_all

/-- Concrete instance of C4: an NZ client reporting SDR content. -/
theorem C4_witness :
    ClientCall.getHdrProcessing ∉ (update (mkClient "NZ7" true "sdr_motion") s0).calls ∧
    ClientCall.getTheaterOptimizerState ∉ (update (mkClient "NZ7" true "sdr_motion") s0).calls :=
  C4_no_hdr_queries (mkClient "NZ7" true "sdr_motion") s0 "sdr_motion"
    (by decide) rfl rfl (by decide) (by decide)

/-- Claim C5: on an NZ-family poll with the device on where every getter
answers and the content type contains "hlg", the HDR-processing and
theater-optimizer getters are each invoked exactly once and their results are
stored in the corresponding cached fields. -/
theorem C5_hlg_queries_once (c : JVCClient) (s : EntityState)
    (b : Bool) (v1 v2 v3 v4 v5 ct ls hp topt es hd : String)
    (hfam : pyIn "NZ" s.model_family = true)
    (hio : c.is_on = Except.ok true)
    (hll : c.is_ll_on = Except.ok b)
    (h1 : c.get_install_mode = Except.ok v1)
    (h2 : c.get_input_mode = Except.ok v2)
    (h3 : c.get_color_mode = Except.ok v3)
    (h4 : c.get_input_level = Except.ok v4)
    (h5 : c.get_picture_mode = Except.ok v5)
    (hct : c.get_content_type = Except.ok ct)
    (hhlg : pyIn "hlg" ct = true)
    (hls : c.get_laser_mode = Except.ok ls)
    (hhp : c.get_hdr_processing = Except.ok hp)
    (hto : c.get_theater_optimizer_state = Except.ok topt)
    (hes : c.get_eshift_mode = Except.ok es)
    (hhd : c.get_hdr_data = Except.ok hd) :
    (update c s).calls.count ClientCall.getHdrProcessing = 1 ∧
    (update c s).calls.count ClientCall.getTheaterOptimizerState = 1 ∧
    (update c s).st.hdr_processing = hp ∧
    (update c s).st.theater_optimizer = topt := by
  simp [update, step, hio, hll, h1, h2, h3, h4, h5, hct, hhlg, hls, hhp, hto,
    hes, hhd, hfam, List.count_cons]

/-- Concrete instance of C5. -/
theorem C5_witness :
    (update (mkClient "NZ7" true "hlg") s0).calls.count ClientCall.getHdrProcessing = 1 ∧
    (update (mkClient "NZ7" true "hlg") s0).calls.count ClientCall.getTheaterOptimizerState = 1 ∧
    (update (mkClient "NZ7" true "hlg") s0).st.hdr_processing = "hdr10" ∧
    (update (mkClient "NZ7" true "hlg") s0).st.theater_optimizer = "on" :=
  C5_hlg_queries_once (mkClient "NZ7" true "hlg") s0 true "mode1" "hdmi1" "bt2020"
    "enhanced" "frame_adapt_hdr" "hlg" "auto1" "hdr10" "on" "on" "hdr10"
    (by decide) rfl rfl rfl rfl rfl rfl rfl rfl (by decide) rfl rfl rfl rfl rfl

/-- Claim C6: a getter raising mid-update aborts the rest of the cycle: the
exception is recorded and propagates, any statement reached afterwards does
nothing (neither call nor assignment), the raising statement itself assigns
nothing, and — shown on a cycle aborting at the input-level getter — fields
assigned earlier keep their fresh values while every later field keeps
exactly its pre-cycle value. -/
theorem C6_midcycle_abort :
    (∀ (α : Type) (ctx : UpdCtx) (call : ClientCall) (res : Except String α)
        (assign : EntityState → α → EntityState) (e : String), ctx.err = some e →
        step ctx call res assign = ctx) ∧
    (∀ (α : Type) (ctx : UpdCtx) (call : ClientCall) (res : Except String α)
        (assign : EntityState → α → EntityState) (e : String),
        ctx.err = none → res = Except.error e →
        step ctx call res assign = ⟨ctx.st, ctx.calls ++ [call], some e⟩) ∧
    (∀ (c : JVCClient) (s : EntityState) (e : String) (b : Bool) (v1 v2 v3 : String),
        c.is_on = Except.ok true → c.is_ll_on = Except.ok b →
        c.get_install_mode = Except.ok v1 → c.get_input_mode = Except.ok v2 →
        c.get_color_mode = Except.ok v3 → c.get_input_level = Except.error e →
        update c s = ⟨{ s with
            state := true
            lowlatency_enabled := b
            installation_mode := v1
            input_mode := v2
            color_mode := v3 },
          [ClientCall.isOn, ClientCall.isLLOn, ClientCall.getInstallMode,
           ClientCall.getInputMode, ClientCall.getColorMode, ClientCall.getInputLevel],
          some e⟩) := by
  refine ⟨?_, ?_, ?_⟩
  · intro α ctx call res assign e h
    exact step_err_skip ctx call res assign e h
  · intro α ctx call res assign e h hres
    exact step_raise ctx call res assign e h hres
  · intro c s e b v1 v2 v3 hio hll h1 h2 h3 h4
    simp [update, step, hio, hll, h1, h2, h3, h4]

/-- Concrete instance of C6's aborted cycle. -/
theorem C6_witness :
    update failLevelClient s0 = ⟨{ s0 with
        state := true
        lowlatency_enabled := true
        installation_mode := "mode1"
        input_mode := "hdmi1"
        color_mode := "bt2020" },
      [ClientCall.isOn, ClientCall.isLLOn, ClientCall.getInstallMode,
       ClientCall.getInputMode, ClientCall.getColorMode, ClientCall.getInputLevel],
      some "TimeoutError"⟩ :=
  C6_midcycle_abort.2.2 failLevelClient s0 "TimeoutError" true "mode1" "hdmi1" "bt2020"
    rfl rfl rfl rfl rfl rfl

/-- Claim C9: when the model family contains both "NZ" and "NX", the NZ
treatment wins: `extra_state_attributes` returns the NZ key set, and a
functioning poll queries content type, laser mode, e-shift mode and HDR data
but never lamp power. -/
theorem C9_nz_wins (c : JVCClient) (s : EntityState)
    (b : Bool) (v1 v2 v3 v4 v5 ct ls hp topt es hd : String)
    (hNZ : pyIn "NZ" s.model_family = true)
    (hNX : pyIn "NX" s.model_family = true)
    (hio : c.is_on = Except.ok true)
    (hll : c.is_ll_on = Except.ok b)
    (h1 : c.get_install_mode = Except.ok v1)
    (h2 : c.get_input_mode = Except.ok v2)
    (h3 : c.get_color_mode = Except.ok v3)
    (h4 : c.get_input_level = Except.ok v4)
    (h5 : c.get_picture_mode = Except.ok v5)
    (hct : c.get_content_type = Except.ok ct)
    (hls : c.get_laser_mode = Except.ok ls)
    (hhp : c.get_hdr_processing = Except.ok hp)
    (hto : c.get_theater_optimizer_state = Except.ok topt)
    (hes : c.get_eshift_mode = Except.ok es)
    (hhd : c.get_hdr_data = Except.ok hd) :
    (extra_state_attributes s).map Prod.fst = nzKeys ∧
    ClientCall.getContentType ∈ (update c s).calls ∧
    ClientCall.getLaserMode ∈ (update c s).calls ∧
    ClientCall.getEshiftMode ∈ (update c s).calls ∧
    ClientCall.getHdrData ∈ (update c s).calls ∧
    ClientCall.getLampPower ∉ (update c s).calls := by
  constructor
  · unfold extra_state_attributes nzKeys
    rw [if_pos hNZ]
    rfl
  · by_cases hc : (pyIn "hdr" ct || pyIn "hlg" ct) = true
    · simp [update, step, hio, hll, h1, h2, h3, h4, h5, hct, hls, hhp, hto, hes,
        hhd, hNZ, hNX, hc]
    · have hc' : (pyIn "hdr" ct || pyIn "hlg" ct) = false := by
        cases hval : (pyIn "hdr" ct || pyIn "hlg" ct)
        · rfl
        · exact absurd hval hc
      simp [update, step, hio, hll, h1, h2, h3, h4, h5, hct, hls, hes,
        hhd, hNZ, hNX, hc']

/-- Concrete instance of C9 on family "NX9NZ". -/
theorem C9_witness :
    (extra_state_attributes (initEntity "p" "h" (mkClient "NX9NZ" true "film"))).map Prod.fst = nzKeys ∧
    ClientCall.getContentType ∈ (update (mkClient "NX9NZ" true "film") (initEntity "p" "h" (mkClient "NX9NZ" true "film"))).calls ∧
    ClientCall.getLaserMode ∈ (update (mkClient "NX9NZ" true "film") (initEntity "p" "h" (mkClient "NX9NZ" true "film"))).calls ∧
    ClientCall.getEshiftMode ∈ (update (mkClient "NX9NZ" true "film") (initEntity "p" "h" (mkClient "NX9NZ" true "film"))).calls ∧
    ClientCall.getHdrData ∈ (update (mkClient "NX9NZ" true "film") (initEntity "p" "h" (mkClient "NX9NZ" true "film"))).calls ∧
    ClientCall.getLampPower ∉ (update (mkClient "NX9NZ" true "film") (initEntity "p" "h" (mkClient "NX9NZ" true "film"))).calls :=
  C9_nz_wins (mkClient "NX9NZ" true "film") (initEntity "p" "h" (mkClient "NX9NZ" true "film"))
    true "mode1" "hdmi1" "bt2020" "enhanced" "frame_adapt_hdr" "film" "auto1" "hdr10" "on" "on" "hdr10"
    (by decide) (by decide) rfl rfl rfl rfl rfl rfl rfl rfl rfl rfl rfl rfl rfl
